import Mathlib

/-!
Verification of the streaming response translation and tool-orchestration
pipeline of the AgentDemo chat backend.

The definitions below are a shallow embedding of
`backend/services/openrouter.py` (the turn generator
`generate_chat_openrouter`), of the mode-parameter chain of
`backend/services/internal_llm.py`, and of the streaming proxy of
`docker/emulator/emulator_app.py`.  Text is modelled as `List Char`
(Python strings are sequences of unicode code points), upstream HTTP
behaviour as a function from call index to a response value, and the
web-search skill plus the JSON parse of the buffered tool arguments as
function parameters, since both are external to the streaming logic.
-/

namespace AgentDemo

/-- Characters of a string literal. -/
def chars (s : String) : List Char := s.data

/-- Python `str.isspace` on the ASCII whitespace characters, the ones
`str.strip()` removes. -/
def pySpace (c : Char) : Bool :=
  c = ' ' || c = '\t' || c = '\n' || c = '\r' || c = '\x0b' || c = '\x0c'

/-- Remove trailing whitespace, the right half of Python `str.strip()`. -/
def dropTrail (l : List Char) : List Char :=
  (l.reverse.dropWhile pySpace).reverse

/-- Python `str.strip()`: remove leading and trailing whitespace. -/
def pyStrip (l : List Char) : List Char :=
  dropTrail (l.dropWhile pySpace)

/-- The literal opening tag. -/
def openTag : List Char := chars ("<think>")

/-- The literal closing tag. -/
def closeTag : List Char := chars ("</think>")

/-- Split a list around the first occurrence of `pat`, as `re.search`
locates the leftmost match: returns the part before the match and the part
after it. -/
def splitFirst (pat : List Char) : List Char → Option (List Char × List Char)
  | [] => if pat.isPrefixOf ([] : List Char) then some ([], []) else none
  | c :: rest =>
    if pat.isPrefixOf (c :: rest) then some ([], (c :: rest).drop pat.length)
    else
      match splitFirst pat rest with
      | some (p, q) => some (c :: p, q)
      | none => none

/-- Python substring test, the `in` operator on strings: some occurrence
of `pat` exists in `l`. -/
def containsStr (pat l : List Char) : Bool := (splitFirst pat l).isSome

/-- Inner text of the first balanced match of the regular expression
`<think>([\s\S]*?)</think>`: the text between the first opening tag and the
first closing tag after it. -/
def firstThinkInner (l : List Char) : Option (List Char) :=
  (splitFirst openTag l).bind (fun aq =>
    (splitFirst closeTag aq.2).map (fun ib => ib.1))

/-- Left-to-right removal of every `<think>` and `</think>` occurrence,
as `re.sub` with the pattern matching either tag (openrouter.py line 327). -/
def stripThinkTags : List Char → List Char
  | '<' :: 't' :: 'h' :: 'i' :: 'n' :: 'k' :: '>' :: rest => stripThinkTags rest
  | '<' :: '/' :: 't' :: 'h' :: 'i' :: 'n' :: 'k' :: '>' :: rest => stripThinkTags rest
  | c :: rest => c :: stripThinkTags rest
  | [] => []

/-- The corrective text built by the thinking-mode enforcement: the text
wrapped in think tags, a blank line, then the text again. -/
def wrapThink (t : List Char) : List Char :=
  openTag ++ '\n' :: t ++ '\n' :: closeTag ++ '\n' :: '\n' :: t

/-- Post-stream thinking enforcement (openrouter.py lines 309 to 333).
Returns the updated full response together with the corrective chunk text
when one is emitted. -/
def enforceThinking (fr : List Char) : List Char × Option (List Char) :=
  if containsStr openTag fr = false then
    (wrapThink fr, some (wrapThink fr))
  else if (pyStrip ((firstThinkInner fr).getD [])).length < 10 then
    if pyStrip (stripThinkTags fr) = [] then (wrapThink fr, some (wrapThink fr))
    else (wrapThink (pyStrip (stripThinkTags fr)),
          some (wrapThink (pyStrip (stripThinkTags fr))))
  else (fr, none)

/-- Decidable form of the specification property: the text contains a
balanced think tag pair whose inner text strips to at least `n`
characters. -/
def thinkPairGE (s : List Char) (n : Nat) : Bool :=
  (List.range (s.length + 1)).any (fun i =>
    openTag.isPrefixOf (s.drop i) &&
    (List.range (s.length + 1)).any (fun k =>
      closeTag.isPrefixOf (s.drop (i + 7 + k)) &&
      decide (n ≤ (pyStrip ((s.drop (i + 7)).take k)).length)))

/-- One entry of a `tool_calls` delta array.  The source only reads the
first entry of the array; `name` and `arguments` stand for the fields of
its `function` member, `none` when the key is absent. -/
structure ToolCallFragment where
  id : Option String
  name : Option String
  arguments : Option String
  deriving DecidableEq

/-- A parsed streaming delta (the `choices[0].delta` object).  Optional
fields are `none` when the key is absent or JSON null. -/
structure Delta where
  content : Option String
  reasoning : Option String
  thought : Option String
  reasoning_content : Option String
  tool_calls : List ToolCallFragment
  deriving DecidableEq

/-- One raw SSE line of an upstream stream, after the line-level checks of
the loop: a parseable data line with a first choice, the DONE sentinel, an
unparseable data line, or a blank or non-data line. -/
inductive UpLine where
  | data (d : Delta)
  | doneMark
  | malformed
  | blank
  deriving DecidableEq

/-- One outward SSE emission of the turn generator: the original upstream
line re-emitted, a reparsed copy with the delta content replaced, a
synthetic minimal chunk, or an error object line. -/
inductive OutEvent where
  | raw (d : Delta)
  | modified (d : Delta) (content : List Char)
  | synthetic (content : List Char)
  | errorEvent (msg : String)
  deriving DecidableEq

/-- The mutable state of the first-pass streaming loop: the accumulated
response text, the tool flag and the tool-call buffer. -/
structure StreamState where
  full_response : List Char
  is_calling_tool : Bool
  buf_id : String
  buf_name : String
  buf_args : String
  deriving DecidableEq

/-- Initial loop state (openrouter.py lines 205 to 207). -/
def initStream : StreamState := ⟨[], false, "", "", ""⟩

/-- Python truthiness of an optional string field: present and non-empty. -/
def truthyOpt : Option String → Option String
  | none => none
  | some s => if s = "" then none else some s

/-- Line 265 of openrouter.py:
`reasoning = delta.get("reasoning") or delta.get("thought")`. -/
def effReasoning (d : Delta) : Option String :=
  match truthyOpt d.reasoning with
  | some r => some r
  | none => truthyOpt d.thought

/-- One iteration of the first-pass SSE loop (openrouter.py lines 240 to
304): tool fragments are buffered silently; otherwise reasoning deltas are
re-encoded with the opening tag, and content deltas are forwarded, with a
closing tag injected when a think section is still open. -/
def stepLine (st : StreamState) (l : UpLine) : StreamState × List OutEvent :=
  match l with
  | .doneMark => (st, [])
  | .malformed => (st, [])
  | .blank => (st, [])
  | .data d =>
    match d.tool_calls with
    | tc :: _ =>
      let newId := match tc.id with
        | some i => if i ≠ "" then i else st.buf_id
        | none => st.buf_id
      let newName := match tc.name with
        | some n => if n ≠ "" then st.buf_name ++ n else st.buf_name
        | none => st.buf_name
      let newArgs := match tc.arguments with
        | some a => if a ≠ "" then st.buf_args ++ a else st.buf_args
        | none => st.buf_args
      ({ st with is_calling_tool := true, buf_id := newId,
                 buf_name := newName, buf_args := newArgs }, [])
    | [] =>
      if st.is_calling_tool then (st, [])
      else
        match effReasoning d with
        | some r =>
          let rchunk :=
            if containsStr openTag st.full_response then chars r
            else openTag ++ '\n' :: chars r
          ({ st with full_response := st.full_response ++ rchunk },
           [.modified d rchunk])
        | none =>
          let c0 := d.content.getD ""
          if c0 = "" then (st, [])
          else if containsStr openTag st.full_response &&
                  !(containsStr closeTag st.full_response) then
            let c := chars ("\n</think>\n\n") ++ chars c0
            ({ st with full_response := st.full_response ++ c }, [.modified d c])
          else
            ({ st with full_response := st.full_response ++ chars c0 }, [.raw d])

/-- Fold of the first-pass loop over a list of upstream lines. -/
def runLines (st : StreamState) : List UpLine → StreamState × List OutEvent
  | [] => (st, [])
  | l :: rest =>
    let s1 := stepLine st l
    let s2 := runLines s1.1 rest
    (s2.1, s1.2 ++ s2.2)

/-- The follow-up streaming loop after a tool call (openrouter.py lines
419 to 428): only non-empty content deltas are appended and forwarded. -/
def runFollow (fr : List Char) : List UpLine → List Char × List OutEvent
  | [] => (fr, [])
  | .data d :: rest =>
    (match d.content with
     | some c =>
       if c ≠ "" then
         let s2 := runFollow (fr ++ chars c) rest
         (s2.1, .raw d :: s2.2)
       else runFollow fr rest
     | none => runFollow fr rest)
  | _ :: rest => runFollow fr rest

/-- A part of a multimodal message content array. -/
inductive ContentPart where
  | text (s : String)
  | image_url (u : String)
  deriving DecidableEq

/-- Message content: either a plain string or a list of content parts. -/
inductive MsgContent where
  | str (s : String)
  | parts (l : List ContentPart)
  deriving DecidableEq

/-- A completed tool call as placed on an assistant message. -/
structure ToolCall where
  id : String
  type : String
  name : String
  arguments : String
  deriving DecidableEq

/-- A chat message as carried in the request payload. -/
structure Msg where
  role : String
  content : Option MsgContent
  tool_call_id : Option String
  tool_calls : List ToolCall
  name : Option String
  deriving DecidableEq

/-- The outbound chat-completions payload.  The tool schema is a fixed
constant in the source, so its presence is modelled as a flag. -/
structure Payload where
  model : String
  messages : List Msg
  stream : Bool
  tools : Bool
  temperature : Option ℚ
  max_tokens : Option Nat
  deriving DecidableEq

/-- Lowercased characters of a string, Python `str.lower()` on ASCII. -/
def lowerChars (s : String) : List Char := s.data.map Char.toLower

/-- Native-reasoning model detection (openrouter.py lines 163 to 164). -/
def isNativeReasoning (modelId : String) : Bool :=
  containsStr (chars ("deepseek-r1")) (lowerChars modelId) ||
  containsStr (chars ("openai/o1")) (lowerChars modelId) ||
  containsStr (chars ("openai/o3")) (lowerChars modelId) ||
  containsStr (chars ("reasoning")) (lowerChars modelId)

/-- FAST mode system instruction. -/
def fastInstruction : String :=
  "You are in FAST mode. Be highly concise and direct in your response."

/-- THINKING mode instruction used for native reasoning models. -/
def nativeThinkingInstruction : String :=
  "You are a native reasoning model. Please provide your full, detailed internal chain of thought before the final answer."

/-- THINKING mode instruction for ordinary models. -/
def thinkingInstruction : String :=
  "You are in THINKING mode. You MUST structure your response in exactly this format:\n\n<think>\n[Your exhaustive, step-by-step logical reasoning process. Break down the problem, verify constants/formulas, consider edge cases, and show all work. This section must be highly detailed.]\n</think>\n\n[Final clear answer following the closing </think> tag.]\n\nIMPORTANT: You MUST include the <think> and </think> XML tags. Never provide an empty thinking section. If you omit the tags, your response will be rejected."

/-- AUTO mode system instruction. -/
def autoInstruction : String :=
  "You are in AUTO mode. First, evaluate the complexity of the user\x27s prompt. If it involves math, complex logic, coding, or deep analysis, you MUST use <think>...</think> tags for your reasoning before the final answer. If simple, answer directly."

/-- PRO mode system instruction. -/
def proInstruction : String :=
  "You are in PRO mode. Provide an expert, comprehensive, and highly professional response with detailed context and nuance."

/-- Offline clause appended to the system instruction. -/
def offlineInstruction : String :=
  "You are operating in an air-gapped, offline environment. You DO NOT have access to the internet. Do not formulate plans to search the web or provide fabricated internet links."

/-- Temperature merged into the OpenRouter payload per mode (openrouter.py
lines 166 to 190). -/
def orModeTemperature (mode : String) : Option ℚ :=
  if mode = "fast" then some (7/10)
  else if mode = "thinking" then some (3/10)
  else if mode = "auto" then some (1/2)
  else if mode = "pro" then some (1/2)
  else none

/-- Token limit merged into the OpenRouter payload per mode: only fast mode
sets one. -/
def orModeMaxTokens (mode : String) : Option Nat :=
  if mode = "fast" then some 512 else none

/-- System instruction chosen per mode (openrouter.py lines 166 to 190). -/
def orModeInstruction (mode : String) (nativeReasoning : Bool) : Option String :=
  if mode = "fast" then some fastInstruction
  else if mode = "thinking" then
    some (if nativeReasoning then nativeThinkingInstruction else thinkingInstruction)
  else if mode = "auto" then some autoInstruction
  else if mode = "pro" then some proInstruction
  else none

/-- Offline merge of the instruction (openrouter.py lines 192 to 197). -/
def withOffline (offline : Bool) (instr : Option String) : Option String :=
  if offline then
    match instr with
    | some s => some (s ++ "\n" ++ offlineInstruction)
    | none => some offlineInstruction
  else instr

/-- Merge of the system instruction into the message list (openrouter.py
lines 199 to 203).  The source concatenates onto `messages[0].content`
with string concatenation, which is the string-content shape; other
content shapes are left unchanged here, the source does not handle them. -/
def mergeSystem (msgs : List Msg) (instr : Option String) : List Msg :=
  match instr with
  | none => msgs
  | some s =>
    match msgs with
    | m :: rest =>
      if m.role = "system" then
        (match m.content with
         | some (.str c) => { m with content := some (.str (c ++ "\n" ++ s)) } :: rest
         | _ => m :: rest)
      else
        { role := "system", content := some (.str s), tool_call_id := none,
          tool_calls := [], name := none } :: m :: rest
    | [] =>
      [{ role := "system", content := some (.str s), tool_call_id := none,
         tool_calls := [], name := none }]

/-- The inputs of one turn, as received by `generate_chat_openrouter`. -/
structure TurnInput where
  mode : String
  offline : Bool
  internalProvider : Bool
  reqMessages : List Msg
  model : String
  deriving DecidableEq

/-- Payload construction for the first upstream call (openrouter.py lines
132 to 203): the tool schema is injected only when online and not on the
internal emulator, then the mode policy adds sampling parameters and the
system instruction. -/
def buildPayload (inp : TurnInput) : Payload :=
  { model := inp.model
    messages := mergeSystem inp.reqMessages
      (withOffline inp.offline (orModeInstruction inp.mode (isNativeReasoning inp.model)))
    stream := true
    tools := !inp.offline && !inp.internalProvider
    temperature := orModeTemperature inp.mode
    max_tokens := orModeMaxTokens inp.mode }

/-- The notice appended to the last user message before the tool-stripped
retry (openrouter.py line 227). -/
def toolFailNotice : String :=
  " [System Notice: This model does not support tool use. Apologize and explain you\x27ll answer without searching.]"

/-- Append the tool-failure notice to the last message when it is a user
message (openrouter.py lines 228 to 232). -/
def appendToolFailMsg (msgs : List Msg) : List Msg :=
  match msgs.getLast? with
  | none => msgs
  | some m =>
    if m.role = "user" then
      match m.content with
      | some (.str s) =>
        msgs.dropLast ++ [{ m with content := some (.str (s ++ toolFailNotice)) }]
      | some (.parts l) =>
        msgs.dropLast ++ [{ m with content := some (.parts (l ++ [.text toolFailNotice])) }]
      | none => msgs
    else msgs

/-- The upstream behaviour of one HTTP call: a 200 stream of lines, a
non-200 status with a body, or a transport exception raised after some
lines of the stream were already delivered. -/
inductive UpResult where
  | ok (lines : List UpLine)
  | err (status : Nat) (body : String)
  | exn (lines : List UpLine) (msg : String)

/-- The observable outcome of one turn: the outward SSE emissions in
order, the text persisted to the conversation (none when the persistence
block did not run or the text was empty), the payloads of the calls made
by the attempt loop, the payload of the follow-up tool call when one was
made, and whether the generic exception handler fired. -/
structure TurnResult where
  out : List OutEvent
  persisted : Option (List Char)
  firstCalls : List Payload
  followupCall : Option Payload
  errored : Bool
  deriving DecidableEq

/-- The user-visible search progress marker (openrouter.py line 344). -/
def searchProgressText (q : String) : List Char :=
  chars ("\n\n> 🔍 **Searching the Web**: `" ++ q ++ "`...\n\n")

/-- The assistant message carrying the pre-tool-call content and the
buffered tool call (openrouter.py lines 389 to 400).  An empty accumulated
text becomes JSON null. -/
def assistantToolMsg (fr : List Char) (st : StreamState) : Msg :=
  { role := "assistant"
    content := if fr = [] then none else some (.str (String.mk fr))
    tool_call_id := none
    tool_calls := [{ id := st.buf_id, type := "function",
                     name := st.buf_name, arguments := st.buf_args }]
    name := none }

/-- The tool-role result message (openrouter.py lines 402 to 407). -/
def toolResultMsg (st : StreamState) (results : String) : Msg :=
  { role := "tool"
    content := some (.str results)
    tool_call_id := some st.buf_id
    tool_calls := []
    name := some st.buf_name }

/-- Gate of the post-stream enforcement (openrouter.py line 311): only in
thinking mode, with a non-empty accumulated text and no tool call. -/
def enfStep (mode : String) (fr : List Char) (tool : Bool) :
    List Char × Option (List Char) :=
  if mode = "thinking" ∧ fr ≠ [] ∧ tool = false then enforceThinking fr
  else (fr, none)

/-- Continuation after a first response with status 200 (openrouter.py
lines 240 to 434): fold the stream, apply the thinking enforcement, run
the optional tool follow-up call, then persist the accumulated text.
`parseQuery` models the JSON parse of the buffered arguments returning the
query field, empty on failure; `doSearch` models the web-search skill,
whose failures the source converts to a string result. -/
def afterFirst (inp : TurnInput) (p : Payload) (calls : List Payload)
    (nextIdx : Nat) (lines : List UpLine) (up : Nat → UpResult)
    (parseQuery : String → String) (doSearch : String → String) : TurnResult :=
  let fst := runLines initStream lines
  let st := fst.1
  let outs := fst.2
  let enf := enfStep inp.mode st.full_response st.is_calling_tool
  let fr1 := enf.1
  let outs2 := match enf.2 with
    | some t => [OutEvent.synthetic t]
    | none => []
  if st.is_calling_tool = true ∧ st.buf_name = "web_search" then
    let query := parseQuery st.buf_args
    let results := if query ≠ "" then doSearch query else "No results found."
    let p2 := { p with
      messages := p.messages ++ [assistantToolMsg fr1 st, toolResultMsg st results],
      tools := false }
    let searchOut := OutEvent.synthetic (searchProgressText query)
    match up nextIdx with
    | .err _ _ =>
      { out := outs ++ outs2 ++ [searchOut, .errorEvent "Followup OpenRouter API Error."]
        persisted := none, firstCalls := calls, followupCall := some p2,
        errored := false }
    | .exn ls2 m2 =>
      let fol := runFollow fr1 ls2
      { out := outs ++ outs2 ++ searchOut :: fol.2 ++ [.errorEvent m2]
        persisted := none, firstCalls := calls, followupCall := some p2,
        errored := true }
    | .ok ls2 =>
      let fol := runFollow fr1 ls2
      { out := outs ++ outs2 ++ searchOut :: fol.2
        persisted := if fol.1 = [] then none else some fol.1
        firstCalls := calls, followupCall := some p2, errored := false }
  else
    { out := outs ++ outs2
      persisted := if fr1 = [] then none else some fr1
      firstCalls := calls, followupCall := none, errored := false }

/-- The turn generator `generate_chat_openrouter` (openrouter.py lines 205
to 437) as a function of the upstream behaviour.  A non-200 first response
whose body mentions tool while the payload carried the tool schema
triggers exactly one retry with the schema removed; an exception at any
point yields one generic error line and skips the persistence block. -/
def generate_chat_openrouter (inp : TurnInput) (up : Nat → UpResult)
    (parseQuery : String → String) (doSearch : String → String) : TurnResult :=
  let p0 := buildPayload inp
  match up 0 with
  | .ok lines => afterFirst inp p0 [p0] 1 lines up parseQuery doSearch
  | .exn ls m =>
    { out := (runLines initStream ls).2 ++ [.errorEvent m]
      persisted := none, firstCalls := [p0], followupCall := none, errored := true }
  | .err _ body =>
    if p0.tools && containsStr (chars ("tool")) (lowerChars body) then
      let p1 := { p0 with tools := false, messages := appendToolFailMsg p0.messages }
      match up 1 with
      | .ok lines => afterFirst inp p1 [p0, p1] 2 lines up parseQuery doSearch
      | .exn ls m =>
        { out := (runLines initStream ls).2 ++ [.errorEvent m]
          persisted := none, firstCalls := [p0, p1], followupCall := none,
          errored := true }
      | .err _ body2 =>
        { out := [.errorEvent ("OpenRouter API Error: " ++ body2)]
          persisted := none, firstCalls := [p0, p1], followupCall := none,
          errored := false }
    else
      { out := [.errorEvent ("OpenRouter API Error: " ++ body)]
        persisted := none, firstCalls := [p0], followupCall := none,
        errored := false }

/-- The retried payload of the tool-unsupported fallback (openrouter.py
lines 223 to 234): same payload without the tool schema and with the
notice appended to the last user message. -/
def retryPayload (inp : TurnInput) : Payload :=
  { buildPayload inp with
    tools := false
    messages := appendToolFailMsg (buildPayload inp).messages }

/-- Temperature set by `generate_chat_internal` per mode (internal_llm.py
lines 29 to 52): thinking mode uses 0.2 and auto mode sets none. -/
def internalModeTemperature (mode : String) : Option ℚ :=
  if mode = "fast" then some (7/10)
  else if mode = "thinking" then some (1/5)
  else if mode = "pro" then some (1/2)
  else none

/-- Token limit set by `generate_chat_internal` per mode. -/
def internalModeMaxTokens (mode : String) : Option Nat :=
  if mode = "fast" then some 512 else none

/-- The yield filter of the internal streaming loop (internal_llm.py lines
87 to 97): a delta is forwarded exactly when its content is non-empty. -/
def internal_yield_step (c : Option String) : List String :=
  if c.getD "" ≠ "" then [c.getD ""] else []

/-- Token usage block of a completion response. -/
structure Usage where
  prompt_tokens : Nat
  completion_tokens : Nat
  total_tokens : Nat
  deriving DecidableEq

/-- One choice of a vLLM streaming chunk. -/
structure VChoice where
  index : Nat
  delta : Delta
  finish_reason : Option String
  deriving DecidableEq

/-- A parsed vLLM streaming chunk as read by `_transform_streaming_chunk`:
`choices` is none when the key is absent, `usage` is none when absent or
falsy. -/
structure VChunk where
  choices : Option (List VChoice)
  usage : Option Usage
  deriving DecidableEq

/-- A chunk in the canonical aggregator envelope emitted by the
emulator. -/
structure ORChunk where
  id : String
  model : String
  created : Nat
  object : String
  choices : Option (List VChoice)
  usage : Option Usage
  deriving DecidableEq

/-- `_transform_streaming_chunk` (emulator_app.py lines 244 to 273):
stamp the per-request id, model and created fields and copy choices and
usage through. -/
def transform_streaming_chunk (v : VChunk) (generation_id : String)
    (created_ts : Nat) (model : String) : ORChunk :=
  { id := generation_id, model := model, created := created_ts
    object := "chat.completion.chunk", choices := v.choices, usage := v.usage }

/-- One raw SSE line from the local inference server, as classified by the
emulator proxy loop: the DONE sentinel, a parseable data line, an
unparseable data line passed through verbatim, or a blank or non-data line
that is skipped. -/
inductive EmuLine where
  | done
  | data (c : VChunk)
  | malformed (s : String)
  | blank
  deriving DecidableEq

/-- The local server behaviour for one emulator request. -/
inductive EmuResp where
  | ok (lines : List EmuLine)
  | err (status : Nat) (body : String)

/-- One outward emission of the emulator streaming proxy. -/
inductive EmuOut where
  | doneLine
  | chunk (c : ORChunk)
  | passthrough (s : String)
  | errorLine (message : String) (code : Nat)
  deriving DecidableEq

/-- The line loop of `_proxy_streaming` (emulator_app.py lines 223 to
241). -/
def proxyLines (generation_id : String) (created_ts : Nat) (model : String) :
    List EmuLine → List EmuOut
  | [] => []
  | .blank :: rest => proxyLines generation_id created_ts model rest
  | .done :: rest => .doneLine :: proxyLines generation_id created_ts model rest
  | .data c :: rest =>
    .chunk (transform_streaming_chunk c generation_id created_ts model) ::
      proxyLines generation_id created_ts model rest
  | .malformed s :: rest =>
    .passthrough s :: proxyLines generation_id created_ts model rest

/-- `_proxy_streaming` (emulator_app.py lines 190 to 241): one generation
id and one created timestamp are produced per request, before the loop,
and stamped on every chunk; a non-200 local status becomes a single error
line with no DONE after it. -/
def proxy_streaming (generation_id : String) (created_ts : Nat)
    (model : String) : EmuResp → List EmuOut
  | .err status body => [.errorLine body status]
  | .ok lines => proxyLines generation_id created_ts model lines

/-- Generation id construction (emulator_app.py line 200): the prefix
gen- followed by the first sixteen hex characters of a fresh uuid4. -/
def mkGenerationId (uuidHex : String) : String :=
  "gen-" ++ String.mk (uuidHex.data.take 16)

/-- The text carried by an outward emission, when it has one. -/
def yieldContent : OutEvent → Option (List Char)
  | .raw d => some (chars (d.content.getD ""))
  | .modified _ c => some c
  | .synthetic c => some c
  | .errorEvent _ => none

/-! ### Concrete fixtures used by witnesses and counterexamples -/

/-- A plain user message. -/
def userMsgHi : Msg :=
  { role := "user", content := some (.str "Hi"), tool_call_id := none,
    tool_calls := [], name := none }

/-- A delta carrying only content. -/
def contentDelta (s : String) : Delta :=
  { content := some s, reasoning := none, thought := none,
    reasoning_content := none, tool_calls := [] }

/-- A turn input with one user message, online, external provider. -/
def mkInput (mode : String) : TurnInput :=
  { mode := mode, offline := false, internalProvider := false,
    reqMessages := [userMsgHi], model := "m" }

/-- A delta carrying one complete web_search tool-call fragment. -/
def c2ToolDelta : Delta :=
  { content := none, reasoning := none, thought := none,
    reasoning_content := none,
    tool_calls := [{ id := some "call-1", name := some "web_search",
                     arguments := some "query-x" }] }

/-- Upstream behaviour: a tool-call stream, then an empty stream. -/
def c2Up : Nat → UpResult :=
  fun n => if n = 0 then .ok [UpLine.data c2ToolDelta] else .ok []

/-- Upstream behaviour: a 404 whose body mentions tool, then an empty
stream. -/
def c3UpTool : Nat → UpResult :=
  fun n => if n = 0 then .err 404 "No endpoints found that support tool use."
           else .ok []

/-- Upstream behaviour: a plain 500 with no tool mention. -/
def c3UpPlain : Nat → UpResult := fun _ => .err 500 "internal server error"

/-- Upstream behaviour: some partial content, then a transport
exception. -/
def c4Up : Nat → UpResult :=
  fun _ => .exn [UpLine.data (contentDelta "Partial answer so far")]
    "connection reset"

/-- Upstream behaviour: one Hello content chunk then the DONE sentinel. -/
def c5Up : Nat → UpResult :=
  fun _ => .ok [UpLine.data (contentDelta "Hello"), UpLine.doneMark]

/-- A delta whose only payload sits under the reasoning_content key. -/
def c7BadDelta : Delta :=
  { content := none, reasoning := none, thought := none,
    reasoning_content := some "First consider the problem carefully.",
    tool_calls := [] }

/-- A delta whose reasoning payload sits under the thought key. -/
def c7ThoughtDelta : Delta :=
  { content := none, reasoning := none,
    thought := some "Consider the base case first.",
    reasoning_content := none, tool_calls := [] }

/-- A vLLM chunk with one content choice. -/
def c8VChunk : VChunk :=
  { choices := some [{ index := 0, delta := contentDelta "Hello",
                       finish_reason := none }],
    usage := none }

/-- A delta carrying a tool-call fragment for the suppression witness. -/
def c10ToolDelta : Delta :=
  { content := none, reasoning := none, thought := none,
    reasoning_content := none,
    tool_calls := [{ id := some "id-1", name := some "web_",
                     arguments := some "ar" }] }

/-! ### Helper lemmas on whitespace stripping and the think-pair property -/

theorem length_dropWhile_le (p : Char → Bool) (l : List Char) :
    (l.dropWhile p).length ≤ l.length :=
  (List.dropWhile_suffix p).length_le

theorem dropWhile_pySpace_idem (l : List Char) :
    (l.dropWhile pySpace).dropWhile pySpace = l.dropWhile pySpace := by
  induction l with
  | nil => rfl
  | cons a t ih =>
    by_cases h : pySpace a
    · simp [List.dropWhile_cons, h, ih]
    · simp [List.dropWhile_cons, h]

theorem dropTrail_idem (l : List Char) : dropTrail (dropTrail l) = dropTrail l := by
  simp [dropTrail, List.reverse_reverse, dropWhile_pySpace_idem]

theorem dropTrail_pref (l : List Char) : dropTrail l <+: l := by
  obtain ⟨t, ht⟩ := List.dropWhile_suffix (l := l.reverse) pySpace
  refine ⟨t.reverse, ?_⟩
  have h2 := congrArg List.reverse ht
  simpa [dropTrail, List.reverse_append] using h2

theorem dropWhile_eq_self_of_prefix {l B : List Char}
    (hl : l.dropWhile pySpace = l) (hB : B <+: l) :
    B.dropWhile pySpace = B := by
  cases B with
  | nil => rfl
  | cons b B2 =>
    obtain ⟨r, hr⟩ := hB
    have hb : pySpace b = false := by
      by_contra hcon
      have hb2 : pySpace b = true := by simpa using hcon
      rw [← hr, List.cons_append, List.dropWhile_cons, if_pos hb2] at hl
      have hlen := length_dropWhile_le pySpace (B2 ++ r)
      have hcg := congrArg List.length hl
      simp only [List.length_cons] at hcg
      omega
    simp [List.dropWhile_cons, hb]

theorem pyStrip_dropWhile (l : List Char) :
    (pyStrip l).dropWhile pySpace = pyStrip l :=
  dropWhile_eq_self_of_prefix (dropWhile_pySpace_idem l) (dropTrail_pref _)

theorem pyStrip_idem (l : List Char) : pyStrip (pyStrip l) = pyStrip l := by
  calc pyStrip (pyStrip l) = dropTrail ((pyStrip l).dropWhile pySpace) := rfl
    _ = dropTrail (pyStrip l) := by rw [pyStrip_dropWhile]
    _ = dropTrail (dropTrail (l.dropWhile pySpace)) := rfl
    _ = dropTrail (l.dropWhile pySpace) := dropTrail_idem _
    _ = pyStrip l := rfl

theorem dropTrail_append_newline (l : List Char) :
    dropTrail (l ++ ['\n']) = dropTrail l := by
  have hnl : pySpace '\n' = true := rfl
  simp [dropTrail, List.reverse_append, List.dropWhile_cons, hnl]

theorem pyStrip_wrap (x : List Char) :
    pyStrip ('\n' :: (x ++ ['\n'])) = pyStrip x := by
  have hnl : pySpace '\n' = true := rfl
  unfold pyStrip
  rw [List.dropWhile_cons, if_pos hnl, List.dropWhile_append]
  by_cases hE : (x.dropWhile pySpace).isEmpty
  · rw [if_pos hE]
    rw [List.isEmpty_iff.mp hE]
    rfl
  · rw [if_neg hE]
    exact dropTrail_append_newline _

theorem splitFirst_eq (pat : List Char) (s : List Char) :
    ∀ (a b : List Char), splitFirst pat s = some (a, b) → s = a ++ pat ++ b := by
  induction s with
  | nil =>
    intro a b h
    unfold splitFirst at h
    by_cases hp : pat.isPrefixOf ([] : List Char)
    · rw [if_pos hp] at h
      have hpat : pat = [] :=
        List.prefix_nil.mp (List.isPrefixOf_iff_prefix.mp hp)
      simp only [Option.some.injEq, Prod.mk.injEq] at h
      obtain ⟨ha, hb⟩ := h
      subst ha; subst hb
      simp [hpat]
    · rw [if_neg hp] at h
      cases h
  | cons c rest ih =>
    intro a b h
    unfold splitFirst at h
    by_cases hp : pat.isPrefixOf (c :: rest)
    · rw [if_pos hp] at h
      obtain ⟨t, ht⟩ := List.isPrefixOf_iff_prefix.mp hp
      simp only [Option.some.injEq, Prod.mk.injEq] at h
      obtain ⟨ha, hb⟩ := h
      subst ha; subst hb
      rw [← ht]
      simp [List.drop_left]
    · rw [if_neg hp] at h
      cases hsp : splitFirst pat rest with
      | none => rw [hsp] at h; cases h
      | some pq =>
        obtain ⟨p, q⟩ := pq
        rw [hsp] at h
        simp only [Option.some.injEq, Prod.mk.injEq] at h
        obtain ⟨ha, hb⟩ := h
        subst ha; subst hb
        have hrest := ih p q hsp
        simp [hrest]

theorem thinkPairGE_of_decomp (s a inner b : List Char) (n : Nat)
    (h : s = a ++ (openTag ++ (inner ++ (closeTag ++ b))))
    (hn : n ≤ (pyStrip inner).length) :
    thinkPairGE s n = true := by
  have hlen : s.length = a.length + (7 + (inner.length + (8 + b.length))) := by
    rw [h]; simp [List.length_append, openTag, closeTag, chars]; omega
  unfold thinkPairGE
  rw [List.any_eq_true]
  refine ⟨a.length, List.mem_range.mpr (by omega), ?_⟩
  rw [Bool.and_eq_true]
  constructor
  · have hdrop : s.drop a.length = openTag ++ (inner ++ (closeTag ++ b)) := by
      rw [h]; exact List.drop_left a _
    rw [hdrop]
    exact List.isPrefixOf_iff_prefix.mpr (List.prefix_append _ _)
  · rw [List.any_eq_true]
    refine ⟨inner.length, List.mem_range.mpr (by omega), ?_⟩
    have h2 : s = (a ++ openTag) ++ (inner ++ (closeTag ++ b)) := by
      rw [h]; simp [List.append_assoc]
    have hd7 : s.drop (a.length + 7) = inner ++ (closeTag ++ b) := by
      have hl2 : (a ++ openTag).length = a.length + 7 := by
        simp [List.length_append, openTag, chars]
      rw [h2, ← hl2]
      exact List.drop_left _ _
    have h3 : s = ((a ++ openTag) ++ inner) ++ (closeTag ++ b) := by
      rw [h]; simp [List.append_assoc]
    have hd8 : s.drop (a.length + 7 + inner.length) = closeTag ++ b := by
      have hl3 : ((a ++ openTag) ++ inner).length = a.length + 7 + inner.length := by
        simp [List.length_append, openTag, chars]; omega
      rw [h3, ← hl3]
      exact List.drop_left _ _
    rw [Bool.and_eq_true]
    constructor
    · rw [hd8]
      exact List.isPrefixOf_iff_prefix.mpr (List.prefix_append _ _)
    · rw [hd7, List.take_left, decide_eq_true_eq]
      exact hn

theorem wrapThink_decomp (t : List Char) :
    wrapThink t =
      [] ++ (openTag ++ (('\n' :: (t ++ ['\n'])) ++ (closeTag ++ ('\n' :: '\n' :: t)))) := by
  simp [wrapThink, List.append_assoc]

theorem thinkPairGE_wrap (t : List Char) (n : Nat)
    (hn : n ≤ (pyStrip t).length) :
    thinkPairGE (wrapThink t) n = true := by
  refine thinkPairGE_of_decomp _ [] ('\n' :: (t ++ ['\n'])) ('\n' :: '\n' :: t) n
    (wrapThink_decomp t) ?_
  rw [pyStrip_wrap]
  exact hn

theorem firstThinkInner_decomp (fr inner : List Char)
    (h : firstThinkInner fr = some inner) :
    ∃ a b, fr = a ++ (openTag ++ (inner ++ (closeTag ++ b))) := by
  unfold firstThinkInner at h
  cases hs1 : splitFirst openTag fr with
  | none => rw [hs1] at h; cases h
  | some aq =>
    obtain ⟨a, q⟩ := aq
    rw [hs1] at h
    have h2 : (splitFirst closeTag q).map (fun ib => ib.1) = some inner := h
    cases hs2 : splitFirst closeTag q with
    | none => rw [hs2] at h2; cases h2
    | some ib =>
      obtain ⟨i, b⟩ := ib
      rw [hs2] at h2
      have h3 : i = inner := by
        simpa using h2
      subst h3
      have e1 := splitFirst_eq openTag fr a q hs1
      have e2 := splitFirst_eq closeTag q i b hs2
      refine ⟨a, b, ?_⟩
      rw [e1, e2]
      simp [List.append_assoc]

theorem enforceThinking_pair (fr : List Char) :
    thinkPairGE (enforceThinking fr).1 0 = true := by
  unfold enforceThinking
  by_cases h1 : containsStr openTag fr = false
  · rw [if_pos h1]
    exact thinkPairGE_wrap fr 0 (Nat.zero_le _)
  · rw [if_neg h1]
    by_cases h2 : (pyStrip ((firstThinkInner fr).getD [])).length < 10
    · rw [if_pos h2]
      by_cases h3 : pyStrip (stripThinkTags fr) = []
      · rw [if_pos h3]
        exact thinkPairGE_wrap fr 0 (Nat.zero_le _)
      · rw [if_neg h3]
        exact thinkPairGE_wrap _ 0 (Nat.zero_le _)
    · rw [if_neg h2]
      push_neg at h2
      cases hfi : firstThinkInner fr with
      | none =>
        exfalso
        rw [hfi] at h2
        simp [pyStrip, dropTrail] at h2
      | some inner =>
        rw [hfi] at h2
        obtain ⟨a, b, hab⟩ := firstThinkInner_decomp fr inner hfi
        exact thinkPairGE_of_decomp fr a inner b 0 hab (Nat.zero_le _)

theorem enforceThinking_GE10 (fr : List Char)
    (h1 : 10 ≤ (pyStrip fr).length)
    (h2 : 10 ≤ (pyStrip (stripThinkTags fr)).length) :
    thinkPairGE (enforceThinking fr).1 10 = true := by
  unfold enforceThinking
  by_cases hc : containsStr openTag fr = false
  · rw [if_pos hc]
    exact thinkPairGE_wrap fr 10 h1
  · rw [if_neg hc]
    by_cases hs : (pyStrip ((firstThinkInner fr).getD [])).length < 10
    · rw [if_pos hs]
      by_cases hct : pyStrip (stripThinkTags fr) = []
      · exfalso
        rw [hct] at h2
        simp at h2
      · rw [if_neg hct]
        refine thinkPairGE_wrap _ 10 ?_
        rw [pyStrip_idem]
        exact h2
    · rw [if_neg hs]
      push_neg at hs
      cases hfi : firstThinkInner fr with
      | none =>
        exfalso
        rw [hfi] at hs
        simp [pyStrip, dropTrail] at hs
      | some inner =>
        rw [hfi] at hs
        obtain ⟨a, b, hab⟩ := firstThinkInner_decomp fr inner hfi
        exact thinkPairGE_of_decomp fr a inner b 10 hab hs

theorem wrapThink_ne_nil (t : List Char) : wrapThink t ≠ [] := by
  simp [wrapThink, openTag, chars]

theorem enforceThinking_ne_nil (fr : List Char) (h : fr ≠ []) :
    (enforceThinking fr).1 ≠ [] := by
  unfold enforceThinking
  by_cases h1 : containsStr openTag fr = false
  · rw [if_pos h1]; exact wrapThink_ne_nil fr
  · rw [if_neg h1]
    by_cases h2 : (pyStrip ((firstThinkInner fr).getD [])).length < 10
    · rw [if_pos h2]
      by_cases h3 : pyStrip (stripThinkTags fr) = []
      · rw [if_pos h3]; exact wrapThink_ne_nil fr
      · rw [if_neg h3]; exact wrapThink_ne_nil _
    · rw [if_neg h2]; exact h

/-! ### Helper lemmas on the streaming loop -/

theorem stepLine_suppressed (st : StreamState) (l : UpLine)
    (h : st.is_calling_tool = true) :
    (stepLine st l).1.full_response = st.full_response ∧
    (stepLine st l).1.is_calling_tool = true ∧
    (stepLine st l).2 = [] := by
  cases l with
  | doneMark => exact ⟨rfl, h, rfl⟩
  | malformed => exact ⟨rfl, h, rfl⟩
  | blank => exact ⟨rfl, h, rfl⟩
  | data d =>
    cases htc : d.tool_calls with
    | nil => simp [stepLine, htc, h]
    | cons tc tl => simp [stepLine, htc]

theorem runLines_suppressed (ls : List UpLine) :
    ∀ st : StreamState, st.is_calling_tool = true →
      (runLines st ls).1.full_response = st.full_response ∧
      (runLines st ls).2 = [] ∧
      (runLines st ls).1.is_calling_tool = true := by
  induction ls with
  | nil => intro st h; exact ⟨rfl, rfl, h⟩
  | cons l rest ih =>
    intro st h
    have hstep := stepLine_suppressed st l h
    have hrec := ih (stepLine st l).1 hstep.2.1
    refine ⟨?_, ?_, ?_⟩
    · calc (runLines st (l :: rest)).1.full_response
          = (runLines (stepLine st l).1 rest).1.full_response := rfl
        _ = (stepLine st l).1.full_response := hrec.1
        _ = st.full_response := hstep.1
    · show (stepLine st l).2 ++ (runLines (stepLine st l).1 rest).2 = []
      rw [hstep.2.2, hrec.2.1]
      rfl
    · calc (runLines st (l :: rest)).1.is_calling_tool
          = (runLines (stepLine st l).1 rest).1.is_calling_tool := rfl
        _ = true := hrec.2.2

/-! ### Helper lemmas on the emulator proxy -/

theorem proxyLines_chunk (gid : String) (ts : Nat) (model : String)
    (lines : List EmuLine) :
    ∀ c : ORChunk, EmuOut.chunk c ∈ proxyLines gid ts model lines →
      c.id = gid ∧ c.model = model ∧ c.created = ts := by
  induction lines with
  | nil => intro c h; simp [proxyLines] at h
  | cons l rest ih =>
    intro c h
    cases l with
    | blank =>
      exact ih c (by simpa [proxyLines] using h)
    | done =>
      simp only [proxyLines] at h
      rcases List.mem_cons.mp h with h1 | h2
      · cases h1
      · exact ih c h2
    | data v =>
      simp only [proxyLines] at h
      rcases List.mem_cons.mp h with h1 | h2
      · injection h1 with hc
        subst hc
        exact ⟨rfl, rfl, rfl⟩
      · exact ih c h2
    | malformed s =>
      simp only [proxyLines] at h
      rcases List.mem_cons.mp h with h1 | h2
      · cases h1
      · exact ih c h2

theorem mkGenerationId_inj (u1 u2 : String)
    (h : u1.data.take 16 ≠ u2.data.take 16) :
    mkGenerationId u1 ≠ mkGenerationId u2 := by
  intro he
  apply h
  have hd := congrArg String.data he
  rw [show (mkGenerationId u1).data = "gen-".data ++ u1.data.take 16 from
        String.data_append _ _,
      show (mkGenerationId u2).data = "gen-".data ++ u2.data.take 16 from
        String.data_append _ _] at hd
  exact List.append_cancel_left hd

/-! ### Helper lemmas on the turn runner -/

theorem enfStep_tool (mode : String) (fr : List Char) :
    enfStep mode fr true = (fr, none) := by
  simp [enfStep]

theorem afterFirst_no_tool (inp : TurnInput) (p : Payload) (calls : List Payload)
    (nextIdx : Nat) (lines : List UpLine) (up : Nat → UpResult)
    (pq ds : String → String)
    (htool : (runLines initStream lines).1.is_calling_tool = false) :
    afterFirst inp p calls nextIdx lines up pq ds =
      { out := (runLines initStream lines).2 ++
          (match (enfStep inp.mode (runLines initStream lines).1.full_response false).2 with
           | some t => [OutEvent.synthetic t]
           | none => [])
        persisted :=
          if (enfStep inp.mode (runLines initStream lines).1.full_response false).1 = []
          then none
          else some (enfStep inp.mode (runLines initStream lines).1.full_response false).1
        firstCalls := calls, followupCall := none, errored := false } := by
  simp [afterFirst, htool]

theorem afterFirst_tool (inp : TurnInput) (p : Payload) (calls : List Payload)
    (nextIdx : Nat) (lines : List UpLine) (up : Nat → UpResult)
    (pq ds : String → String)
    (htool : (runLines initStream lines).1.is_calling_tool = true)
    (hname : (runLines initStream lines).1.buf_name = "web_search") :
    (afterFirst inp p calls nextIdx lines up pq ds).followupCall =
      some { p with
        messages := p.messages ++
          [assistantToolMsg (runLines initStream lines).1.full_response
             (runLines initStream lines).1,
           toolResultMsg (runLines initStream lines).1
             (if pq (runLines initStream lines).1.buf_args ≠ "" then
                ds (pq (runLines initStream lines).1.buf_args)
              else "No results found.")],
        tools := false } ∧
    (afterFirst inp p calls nextIdx lines up pq ds).firstCalls = calls := by
  cases hup : up nextIdx with
  | ok ls2 => simp [afterFirst, htool, hname, enfStep_tool, hup]
  | err s b => simp [afterFirst, htool, hname, enfStep_tool, hup]
  | exn ls2 m => simp [afterFirst, htool, hname, enfStep_tool, hup]

theorem afterFirst_firstCalls (inp : TurnInput) (p : Payload)
    (calls : List Payload) (nextIdx : Nat) (lines : List UpLine)
    (up : Nat → UpResult) (pq ds : String → String) :
    (afterFirst inp p calls nextIdx lines up pq ds).firstCalls = calls := by
  by_cases h : ((runLines initStream lines).1.is_calling_tool = true ∧
      (runLines initStream lines).1.buf_name = "web_search")
  · cases hup : up nextIdx <;> simp [afterFirst, h, hup]
  · simp [afterFirst, h]

theorem chars_ne_nil (s : String) (h : s ≠ "") : chars s ≠ [] := by
  intro hc
  exact h (String.ext hc)

theorem truthyOpt_some (o : Option String) (r : String)
    (h : truthyOpt o = some r) : o = some r ∧ r ≠ "" := by
  cases o with
  | none => cases h
  | some s =>
    have h2 : (if s = "" then none else some s : Option String) = some r := h
    by_cases hs : s = ""
    · rw [if_pos hs] at h2; cases h2
    · rw [if_neg hs] at h2
      injection h2 with h3
      subst h3
      exact ⟨rfl, hs⟩

theorem stepLine_out_shapes (st : StreamState) (d : Delta)
    (hr : effReasoning d = none) :
    (stepLine st (.data d)).2 = [] ∨
    (∃ c0, d.content = some c0 ∧ c0 ≠ "" ∧
      ((stepLine st (.data d)).2 = [.raw d] ∨
       (stepLine st (.data d)).2 =
         [.modified d (chars ("\n</think>\n\n") ++ chars c0)])) := by
  cases htc : d.tool_calls with
  | cons tc tl => left; simp [stepLine, htc]
  | nil =>
    by_cases hic : st.is_calling_tool
    · left; simp [stepLine, htc, hic]
    · by_cases hc0 : d.content.getD "" = ""
      · left; simp [stepLine, htc, hic, hr, hc0]
      · right
        have hc : ∃ c0, d.content = some c0 ∧ c0 ≠ "" := by
          cases hdc : d.content with
          | none => rw [hdc] at hc0; simp at hc0
          | some c0 =>
            refine ⟨c0, rfl, ?_⟩
            rw [hdc] at hc0
            simpa using hc0
        obtain ⟨c0, hdc, hne⟩ := hc
        refine ⟨c0, hdc, hne, ?_⟩
        by_cases hth : (containsStr openTag st.full_response &&
            !containsStr closeTag st.full_response) = true
        · right; simp [stepLine, htc, hic, hr, hc0, hth, hdc, hne]
        · left; simp [stepLine, htc, hic, hr, hc0, hth, hdc, hne]

/-! ### Claim theorems -/

/-- C1 amended: a thinking turn with no tool call and a non-empty
accumulated text persists the enforced text, which always contains a
balanced think pair; its trimmed inner text reaches 10 characters whenever
the accumulated text and its tag-stripped form trim to at least 10
characters; the untagged scenario persists the exact doubled wrapping. -/
theorem C1_thinking_enforcement (inp : TurnInput) (ls : List UpLine)
    (up : Nat → UpResult) (pq ds : String → String)
    (hmode : inp.mode = "thinking")
    (h0 : up 0 = .ok ls)
    (htool : (runLines initStream ls).1.is_calling_tool = false)
    (hne : (runLines initStream ls).1.full_response ≠ []) :
    (generate_chat_openrouter inp up pq ds).persisted =
      some (enforceThinking (runLines initStream ls).1.full_response).1 ∧
    thinkPairGE (enforceThinking (runLines initStream ls).1.full_response).1 0 =
      true ∧
    (10 ≤ (pyStrip (runLines initStream ls).1.full_response).length →
     10 ≤ (pyStrip (stripThinkTags (runLines initStream ls).1.full_response)).length →
     thinkPairGE (enforceThinking (runLines initStream ls).1.full_response).1 10 =
       true) ∧
    (generate_chat_openrouter (mkInput "thinking")
        (fun _ => .ok [UpLine.data (contentDelta "The answer is 4.")])
        pq ds).persisted =
      some (chars ("<think>\nThe answer is 4.\n</think>\n\nThe answer is 4.")) := by
  refine ⟨?_, enforceThinking_pair _,
    fun h1 h2 => enforceThinking_GE10 _ h1 h2, rfl⟩
  have hg : generate_chat_openrouter inp up pq ds =
      afterFirst inp (buildPayload inp) [buildPayload inp] 1 ls up pq ds := by
    simp [generate_chat_openrouter, h0]
  rw [hg, afterFirst_no_tool _ _ _ _ _ _ _ _ htool]
  have he : enfStep inp.mode (runLines initStream ls).1.full_response false =
      enforceThinking (runLines initStream ls).1.full_response := by
    rw [hmode]
    simp [enfStep, hne]
  simp only [he]
  rw [if_neg (enforceThinking_ne_nil _ hne)]

/-- C1 witness: a plain 35-character thinking answer is persisted wrapped,
with a balanced pair of at least 10 trimmed inner characters. -/
theorem C1_witness :
    (generate_chat_openrouter (mkInput "thinking")
        (fun _ => .ok [UpLine.data (contentDelta "Let me check the numbers carefully.")])
        (fun _ => "") (fun _ => "")).persisted =
      some (enforceThinking (chars ("Let me check the numbers carefully."))).1 ∧
    thinkPairGE (enforceThinking (chars ("Let me check the numbers carefully."))).1 10 =
      true := by
  have h := C1_thinking_enforcement (mkInput "thinking")
    [UpLine.data (contentDelta "Let me check the numbers carefully.")]
    (fun _ => .ok [UpLine.data (contentDelta "Let me check the numbers carefully.")])
    (fun _ => "") (fun _ => "") rfl rfl (by decide) (by decide)
  exact ⟨h.1, h.2.2.1 (by decide) (by decide)⟩

/-- C1 counterexample: a two-character thinking answer is wrapped, but the
persisted text contains no balanced think pair whose trimmed inner text
reaches 10 characters. -/
theorem C1_counterexample :
    (generate_chat_openrouter (mkInput "thinking")
        (fun _ => .ok [UpLine.data (contentDelta "Hi")])
        (fun _ => "") (fun _ => "")).persisted =
      some (chars ("<think>\nHi\n</think>\n\nHi")) ∧
    thinkPairGE (chars ("<think>\nHi\n</think>\n\nHi")) 10 = false := by
  exact ⟨rfl, by decide⟩

/-- C2: when the first stream buffers a web_search tool call, the
follow-up payload appends, in order, the assistant message carrying the
pre-tool-call text and the buffered tool call, then the tool-role result
message with the matching id, and carries no tool schema; the attempt
loop made exactly one call. -/
theorem C2_tool_roundtrip (inp : TurnInput) (ls : List UpLine)
    (up : Nat → UpResult) (pq ds : String → String)
    (h0 : up 0 = .ok ls)
    (htool : (runLines initStream ls).1.is_calling_tool = true)
    (hname : (runLines initStream ls).1.buf_name = "web_search") :
    (generate_chat_openrouter inp up pq ds).followupCall =
      some { buildPayload inp with
        messages := (buildPayload inp).messages ++
          [assistantToolMsg (runLines initStream ls).1.full_response
             (runLines initStream ls).1,
           toolResultMsg (runLines initStream ls).1
             (if pq (runLines initStream ls).1.buf_args ≠ "" then
                ds (pq (runLines initStream ls).1.buf_args)
              else "No results found.")],
        tools := false } ∧
    (generate_chat_openrouter inp up pq ds).firstCalls = [buildPayload inp] := by
  have hg : generate_chat_openrouter inp up pq ds =
      afterFirst inp (buildPayload inp) [buildPayload inp] 1 ls up pq ds := by
    simp [generate_chat_openrouter, h0]
  have h := afterFirst_tool inp (buildPayload inp) [buildPayload inp] 1 ls up
    pq ds htool hname
  rw [hg]
  exact ⟨h.1, h.2⟩

/-- C2 witness: the concrete tool turn produces the expected follow-up
payload. -/
theorem C2_witness :
    (generate_chat_openrouter (mkInput "pro") c2Up (fun _ => "q")
        (fun s => "results for " ++ s)).followupCall =
      some { buildPayload (mkInput "pro") with
        messages := (buildPayload (mkInput "pro")).messages ++
          [assistantToolMsg
             (runLines initStream [UpLine.data c2ToolDelta]).1.full_response
             (runLines initStream [UpLine.data c2ToolDelta]).1,
           toolResultMsg (runLines initStream [UpLine.data c2ToolDelta]).1
             "results for q"],
        tools := false } ∧
    (generate_chat_openrouter (mkInput "pro") c2Up (fun _ => "q")
        (fun s => "results for " ++ s)).firstCalls =
      [buildPayload (mkInput "pro")] := by
  have h := C2_tool_roundtrip (mkInput "pro") [UpLine.data c2ToolDelta] c2Up
    (fun _ => "q") (fun s => "results for " ++ s) rfl (by decide) (by decide)
  exact ⟨h.1, h.2⟩

/-- C3: a non-200 first response whose body mentions tool while the
payload carried the tool schema triggers exactly one retry whose payload
has no tool schema; any other non-200 ends the turn with a single error
event, one call made, and no follow-up. -/
theorem C3_tool_error_retry (inp : TurnInput) (up : Nat → UpResult)
    (pq ds : String → String) (s : Nat) (body : String)
    (h0 : up 0 = .err s body) :
    ((buildPayload inp).tools = true →
     containsStr (chars ("tool")) (lowerChars body) = true →
      (generate_chat_openrouter inp up pq ds).firstCalls =
        [buildPayload inp, retryPayload inp] ∧
      (retryPayload inp).tools = false ∧
      (∀ s2 body2, up 1 = .err s2 body2 →
        (generate_chat_openrouter inp up pq ds).out =
          [.errorEvent ("OpenRouter API Error: " ++ body2)] ∧
        (generate_chat_openrouter inp up pq ds).followupCall = none)) ∧
    ((buildPayload inp).tools = false ∨
     containsStr (chars ("tool")) (lowerChars body) = false →
      (generate_chat_openrouter inp up pq ds).out =
        [.errorEvent ("OpenRouter API Error: " ++ body)] ∧
      (generate_chat_openrouter inp up pq ds).firstCalls = [buildPayload inp] ∧
      (generate_chat_openrouter inp up pq ds).followupCall = none ∧
      (generate_chat_openrouter inp up pq ds).persisted = none) := by
  constructor
  · intro ht hb
    refine ⟨?_, rfl, ?_⟩
    · cases hup1 : up 1 with
      | ok ls2 =>
        simp [generate_chat_openrouter, h0, ht, hb, hup1, retryPayload,
          afterFirst_firstCalls]
      | err s2 b2 =>
        simp [generate_chat_openrouter, h0, ht, hb, hup1, retryPayload]
      | exn ls2 m2 =>
        simp [generate_chat_openrouter, h0, ht, hb, hup1, retryPayload]
    · intro s2 body2 h1
      constructor <;> simp [generate_chat_openrouter, h0, ht, hb, h1]
  · intro hother
    rcases hother with hother | hother <;>
      refine ⟨?_, ?_, ?_, ?_⟩ <;>
        simp [generate_chat_openrouter, h0, hother]

/-- C3 witness: the 404 tool body triggers the retry with the schema
stripped, and a plain 500 ends the turn with the single error event. -/
theorem C3_witness :
    (generate_chat_openrouter (mkInput "auto") c3UpTool (fun _ => "")
        (fun _ => "")).firstCalls =
      [buildPayload (mkInput "auto"), retryPayload (mkInput "auto")] ∧
    (generate_chat_openrouter (mkInput "auto") c3UpPlain (fun _ => "")
        (fun _ => "")).out =
      [OutEvent.errorEvent ("OpenRouter API Error: internal server error")] := by
  constructor
  · exact ((C3_tool_error_retry (mkInput "auto") c3UpTool (fun _ => "")
      (fun _ => "") 404 "No endpoints found that support tool use." rfl).1
      (by decide) (by decide)).1
  · exact ((C3_tool_error_retry (mkInput "auto") c3UpPlain (fun _ => "")
      (fun _ => "") 500 "internal server error" rfl).2
      (Or.inr (by decide))).1

/-- C4 counterexample: a transport exception after a non-empty partial
chunk leaves the partial text unpersisted; only the error event follows
the already forwarded chunk. -/
theorem C4_counterexample :
    (generate_chat_openrouter (mkInput "fast") c4Up (fun _ => "") (fun _ => "")).out =
      [OutEvent.raw (contentDelta "Partial answer so far"),
       OutEvent.errorEvent "connection reset"] ∧
    (runLines initStream
      [UpLine.data (contentDelta "Partial answer so far")]).1.full_response ≠ [] ∧
    (generate_chat_openrouter (mkInput "fast") c4Up (fun _ => "") (fun _ => "")).persisted =
      none := by
  exact ⟨rfl, by decide, rfl⟩

/-- C4 amended: a transport exception during either upstream call emits
one generic error event and skips the persistence block entirely, so the
partial text is discarded rather than persisted. -/
theorem C4_exception_no_persist (inp : TurnInput) (up : Nat → UpResult)
    (pq ds : String → String) :
    (∀ ls m, up 0 = .exn ls m →
      (generate_chat_openrouter inp up pq ds).out =
        (runLines initStream ls).2 ++ [.errorEvent m] ∧
      (generate_chat_openrouter inp up pq ds).persisted = none ∧
      (generate_chat_openrouter inp up pq ds).errored = true) ∧
    (∀ ls ls2 m, up 0 = .ok ls → up 1 = .exn ls2 m →
      (runLines initStream ls).1.is_calling_tool = true →
      (runLines initStream ls).1.buf_name = "web_search" →
      (generate_chat_openrouter inp up pq ds).persisted = none ∧
      (generate_chat_openrouter inp up pq ds).errored = true) := by
  constructor
  · intro ls m h0
    refine ⟨?_, ?_, ?_⟩ <;> simp [generate_chat_openrouter, h0]
  · intro ls ls2 m h0 h1 htool hname
    constructor <;>
      simp [generate_chat_openrouter, h0, afterFirst, htool, hname,
        enfStep_tool, h1]

/-- C4 witness: the concrete exception turn persists nothing and takes the
exception path. -/
theorem C4_witness :
    (generate_chat_openrouter (mkInput "fast") c4Up (fun _ => "") (fun _ => "")).persisted =
      none ∧
    (generate_chat_openrouter (mkInput "fast") c4Up (fun _ => "") (fun _ => "")).errored =
      true := by
  have h := (C4_exception_no_persist (mkInput "fast") c4Up
    (fun _ => "") (fun _ => "")).1
    [UpLine.data (contentDelta "Partial answer so far")] "connection reset" rfl
  exact ⟨h.2.1, h.2.2⟩

/-- C5 counterexample: for the fast Hello scenario the outward stream is a
single line, the forwarded Hello chunk; no terminal DONE line follows it,
so the claimed two-line stream shape is false. -/
theorem C5_counterexample :
    (generate_chat_openrouter (mkInput "fast") c5Up (fun _ => "") (fun _ => "")).out =
      [OutEvent.raw (contentDelta "Hello")] ∧
    (generate_chat_openrouter (mkInput "fast") c5Up (fun _ => "") (fun _ => "")).out.length =
      1 := by
  exact ⟨rfl, rfl⟩

/-- C5 amended: the outward stream is exactly the one forwarded Hello
chunk, the upstream DONE sentinel is consumed without being forwarded, and
the persisted assistant text is Hello. -/
theorem C5_fast_hello_scenario :
    (generate_chat_openrouter (mkInput "fast") c5Up (fun _ => "") (fun _ => "")).out =
      [OutEvent.raw (contentDelta "Hello")] ∧
    (generate_chat_openrouter (mkInput "fast") c5Up (fun _ => "") (fun _ => "")).persisted =
      some (chars ("Hello")) ∧
    (generate_chat_openrouter (mkInput "fast") c5Up (fun _ => "") (fun _ => "")).followupCall =
      none := by
  exact ⟨rfl, rfl, rfl⟩

/-- C6: for every upstream chunk whose delta is a content delta, the
first-pass loop, the follow-up loop and the internal loop forward a chunk
only when the content string is non-empty; no empty-content chunk is ever
emitted. -/
theorem C6_no_empty_content_chunks :
    (∀ (st : StreamState) (d : Delta), effReasoning d = none →
      ∀ e ∈ (stepLine st (.data d)).2, ∃ c, yieldContent e = some c ∧ c ≠ []) ∧
    (∀ (fr : List Char) (ls : List UpLine),
      ∀ e ∈ (runFollow fr ls).2, ∃ c, yieldContent e = some c ∧ c ≠ []) ∧
    (∀ (c : Option String), ∀ s ∈ internal_yield_step c, s ≠ "") := by
  refine ⟨?_, ?_, ?_⟩
  · intro st d hr e he
    rcases stepLine_out_shapes st d hr with h | ⟨c0, hdc, hne, h | h⟩
    · rw [h] at he; cases he
    · rw [h] at he
      rcases List.mem_singleton.mp he with rfl
      refine ⟨chars c0, ?_, chars_ne_nil c0 hne⟩
      simp [yieldContent, hdc]
    · rw [h] at he
      rcases List.mem_singleton.mp he with rfl
      exact ⟨chars ("\n</think>\n\n") ++ chars c0, rfl, by simp [chars]⟩
  · intro fr ls
    induction ls generalizing fr with
    | nil => intro e he; cases he
    | cons l rest ih =>
      intro e he
      cases l with
      | data d =>
        cases hdc : d.content with
        | none =>
          simp only [runFollow, hdc] at he
          exact ih fr e he
        | some c =>
          by_cases hc : c ≠ ""
          · simp only [runFollow, hdc, if_pos hc] at he
            rcases List.mem_cons.mp he with rfl | he2
            · refine ⟨chars c, ?_, chars_ne_nil c (by simpa using hc)⟩
              simp [yieldContent, hdc]
            · exact ih _ e he2
          · simp only [runFollow, hdc, if_neg hc] at he
            exact ih fr e he
      | doneMark => exact ih fr e (by simpa [runFollow] using he)
      | malformed => exact ih fr e (by simpa [runFollow] using he)
      | blank => exact ih fr e (by simpa [runFollow] using he)
  · intro c s hs
    unfold internal_yield_step at hs
    by_cases hc : c.getD "" ≠ ""
    · rw [if_pos hc] at hs
      rcases List.mem_singleton.mp hs with rfl
      exact hc
    · rw [if_neg hc] at hs
      cases hs

/-- C6 witness: the Hello content chunk is forwarded with non-empty
content. -/
theorem C6_witness :
    ∃ c, yieldContent (OutEvent.raw (contentDelta "Hello")) = some c ∧ c ≠ [] :=
  C6_no_empty_content_chunks.1 initStream (contentDelta "Hello") rfl
    (OutEvent.raw (contentDelta "Hello")) (by decide)

/-- C7 counterexample: a delta whose reasoning payload sits only under the
reasoning_content key yields no event at all, because the source reads the
keys reasoning and thought. -/
theorem C7_counterexample :
    c7BadDelta.reasoning_content = some "First consider the problem carefully." ∧
    (stepLine initStream (.data c7BadDelta)).2 = [] ∧
    (stepLine initStream (.data c7BadDelta)).1 = initStream := by
  exact ⟨rfl, rfl, rfl⟩

/-- C7 amended: the two keys consulted are reasoning and thought, first
truthy one wins; such a delta yields exactly one re-encoded reasoning
chunk carrying that text, also appended to the accumulated response. -/
theorem C7_reasoning_keys (st : StreamState) (d : Delta) (r : String)
    (htool : st.is_calling_tool = false) (hfrag : d.tool_calls = [])
    (hr : effReasoning d = some r) :
    (d.reasoning = some r ∨ d.thought = some r) ∧ r ≠ "" ∧
    (stepLine st (.data d)).2 =
      [OutEvent.modified d
        (if containsStr openTag st.full_response then chars r
         else openTag ++ '\n' :: chars r)] ∧
    (stepLine st (.data d)).1.full_response =
      st.full_response ++
        (if containsStr openTag st.full_response then chars r
         else openTag ++ '\n' :: chars r) := by
  have hkeys : (d.reasoning = some r ∨ d.thought = some r) ∧ r ≠ "" := by
    unfold effReasoning at hr
    cases hre : truthyOpt d.reasoning with
    | some r2 =>
      rw [hre] at hr
      injection hr with h2
      subst h2
      exact ⟨Or.inl (truthyOpt_some _ _ hre).1, (truthyOpt_some _ _ hre).2⟩
    | none =>
      rw [hre] at hr
      exact ⟨Or.inr (truthyOpt_some _ _ hr).1, (truthyOpt_some _ _ hr).2⟩
  refine ⟨hkeys.1, hkeys.2, ?_, ?_⟩
  · simp [stepLine, hfrag, htool, hr]
  · simp [stepLine, hfrag, htool, hr]

/-- C7 witness: a thought-key delta at the initial state yields the
tag-prefixed reasoning chunk. -/
theorem C7_witness :
    (stepLine initStream (.data c7ThoughtDelta)).2 =
      [OutEvent.modified c7ThoughtDelta
        (openTag ++ '\n' :: chars ("Consider the base case first."))] := by
  have h := C7_reasoning_keys initStream c7ThoughtDelta
    "Consider the base case first." rfl rfl rfl
  simpa using h.2.2.1

/-- C8: every chunk of one streamed emulator response carries the single
per-request generation id, model and created timestamp, and the id
construction maps distinct truncated uuid draws to distinct ids. -/
theorem C8_emulator_chunk_invariants :
    (∀ (generation_id : String) (created_ts : Nat) (model : String)
       (lines : List EmuLine) (c : ORChunk),
       EmuOut.chunk c ∈ proxy_streaming generation_id created_ts model (.ok lines) →
       c.id = generation_id ∧ c.model = model ∧ c.created = created_ts) ∧
    (∀ u1 u2 : String, u1.data.take 16 ≠ u2.data.take 16 →
       mkGenerationId u1 ≠ mkGenerationId u2) := by
  constructor
  · intro gid ts model lines c h
    exact proxyLines_chunk gid ts model lines c h
  · exact mkGenerationId_inj

/-- C8 witness: a concrete transformed chunk carries the request id,
model and timestamp, and two distinct uuid draws give distinct ids. -/
theorem C8_witness :
    ((transform_streaming_chunk c8VChunk "gen-id-a" 99 "mod").id = "gen-id-a" ∧
     (transform_streaming_chunk c8VChunk "gen-id-a" 99 "mod").model = "mod" ∧
     (transform_streaming_chunk c8VChunk "gen-id-a" 99 "mod").created = 99) ∧
    mkGenerationId "0123456789abcdef000" ≠ mkGenerationId "ffff456789abcdef000" := by
  constructor
  · exact C8_emulator_chunk_invariants.1 "gen-id-a" 99 "mod"
      [EmuLine.data c8VChunk]
      (transform_streaming_chunk c8VChunk "gen-id-a" 99 "mod") (by decide)
  · exact C8_emulator_chunk_invariants.2 _ _ (by decide)

/-- C9 counterexample: on the internal-LLM path, thinking mode sets
temperature 0.2, not 0.3 as claimed. -/
theorem C9_counterexample :
    internalModeTemperature "thinking" = some (1/5 : ℚ) ∧
    internalModeTemperature "thinking" ≠ some (3/10 : ℚ) := by
  constructor
  · rfl
  · intro h
    have h2 : (1/5 : ℚ) = 3/10 := by
      have h3 : (some (1/5 : ℚ) : Option ℚ) = some (3/10 : ℚ) := by
        rw [← h]; rfl
      injection h3
    norm_num at h2

/-- C9 amended: the OpenRouter payload carries fast 0.7 with 512 tokens,
thinking 0.3, auto 0.5 and pro 0.5 with no token limit, while the
internal path carries fast 0.7 with 512 tokens, thinking 0.2, pro 0.5 and
no parameters for auto. -/
theorem C9_mode_parameters (offline internal : Bool) (msgs : List Msg)
    (model : String) :
    ((buildPayload ⟨"fast", offline, internal, msgs, model⟩).temperature =
        some (7/10 : ℚ) ∧
     (buildPayload ⟨"fast", offline, internal, msgs, model⟩).max_tokens =
        some 512) ∧
    ((buildPayload ⟨"thinking", offline, internal, msgs, model⟩).temperature =
        some (3/10 : ℚ) ∧
     (buildPayload ⟨"thinking", offline, internal, msgs, model⟩).max_tokens =
        none) ∧
    ((buildPayload ⟨"auto", offline, internal, msgs, model⟩).temperature =
        some (1/2 : ℚ) ∧
     (buildPayload ⟨"auto", offline, internal, msgs, model⟩).max_tokens =
        none) ∧
    ((buildPayload ⟨"pro", offline, internal, msgs, model⟩).temperature =
        some (1/2 : ℚ) ∧
     (buildPayload ⟨"pro", offline, internal, msgs, model⟩).max_tokens =
        none) ∧
    (internalModeTemperature "fast" = some (7/10 : ℚ) ∧
     internalModeMaxTokens "fast" = some 512) ∧
    (internalModeTemperature "thinking" = some (1/5 : ℚ) ∧
     internalModeMaxTokens "thinking" = none) ∧
    (internalModeTemperature "pro" = some (1/2 : ℚ) ∧
     internalModeMaxTokens "pro" = none) ∧
    (internalModeTemperature "auto" = none ∧
     internalModeMaxTokens "auto" = none) := by
  exact ⟨⟨rfl, rfl⟩, ⟨rfl, rfl⟩, ⟨rfl, rfl⟩, ⟨rfl, rfl⟩,
    ⟨rfl, rfl⟩, ⟨rfl, rfl⟩, ⟨rfl, rfl⟩, ⟨rfl, rfl⟩⟩

/-- C10: once a tool-call fragment is observed, that chunk yields nothing,
the tool flag is set, and every later line of the same first stream adds
no output and leaves the accumulated response text unchanged. -/
theorem C10_tool_suppression (st : StreamState) (d : Delta) (ls : List UpLine)
    (hd : d.tool_calls ≠ []) :
    (stepLine st (.data d)).2 = [] ∧
    (stepLine st (.data d)).1.is_calling_tool = true ∧
    (runLines (stepLine st (.data d)).1 ls).2 = [] ∧
    (runLines (stepLine st (.data d)).1 ls).1.full_response =
      (stepLine st (.data d)).1.full_response := by
  obtain ⟨tc, tl, htc⟩ := List.exists_cons_of_ne_nil hd
  have h1 : (stepLine st (.data d)).2 = [] := by simp [stepLine, htc]
  have h2 : (stepLine st (.data d)).1.is_calling_tool = true := by
    simp [stepLine, htc]
  have h3 := runLines_suppressed ls (stepLine st (.data d)).1 h2
  exact ⟨h1, h2, h3.2.1, h3.1⟩

/-- C10 witness: after a tool fragment, a later content chunk is neither
yielded nor appended. -/
theorem C10_witness :
    (stepLine initStream (.data c10ToolDelta)).2 = [] ∧
    (runLines (stepLine initStream (.data c10ToolDelta)).1
        [UpLine.data (contentDelta "suppressed text")]).2 = [] ∧
    (runLines (stepLine initStream (.data c10ToolDelta)).1
        [UpLine.data (contentDelta "suppressed text")]).1.full_response =
      (stepLine initStream (.data c10ToolDelta)).1.full_response := by
  have h := C10_tool_suppression initStream c10ToolDelta
    [UpLine.data (contentDelta "suppressed text")] (by decide)
  exact ⟨h.1, h.2.2.1, h.2.2.2⟩

end AgentDemo
